import Mathlib

/-!
Shallow embedding of the windowing / period-tracking engine in
`lttnganalyses/core/analysis.py` (classes `AnalysisConfig`, `TimeRange`,
`Analysis`).

Modelling conventions:
- Python `None`-able values become `Option`; Python truthiness of the
  relevant values is modelled by explicit `*_truthy` helpers (`None`, `0`,
  `""`, `()` and `[]` are falsy).
- Timestamps, field values and durations are `Nat` (the trace timestamps
  are non-negative integers in the source).
- Python exceptions that can escape the engine (`TypeError` from comparing
  `None` with an int, `IndexError` from indexing past the end of the range
  list) are modelled with `Except PyErr`.  The `KeyError` raised by a
  missing event field is caught inside `_get_period_event_key` in the
  source, so field access is modelled as returning `Option Nat` directly.
- Side effects observable by the collaborators (calls to the subclass
  `reset` hook and `tick` notifications fired by `_end_period`) are
  returned as an ordered list of `Effect`s.
- `self._conf.current_ts` is mutated by the engine itself, so the
  configuration record is part of the mutable engine state.
-/

inductive PyErr where
  | typeError
  | indexError
  deriving Repr, DecidableEq

/-- Observable side effects of the engine: a call to the subclass `reset`
hook, or a `tick` notification (fired by `_end_period` with keyword
arguments `begin_ns` and `end_ns`). -/
inductive Effect where
  | reset
  | tick (begin_ns : Option Nat) (end_ns : Option Nat)
  deriving Repr, DecidableEq

/-- An LTTng trace event as consumed by the engine: a timestamp, a name and
named fields (field access `ev[field]` raising `KeyError` on a missing
field is modelled as an association-list lookup returning `Option`). -/
structure Event where
  timestamp : Nat
  name : String
  fields : List (String × Nat)
  deriving Repr, DecidableEq

def Event.get_field (ev : Event) (f : String) : Option Nat :=
  lookup_field ev.fields f
where
  lookup_field : List (String × Nat) → String → Option Nat
    | [], _ => none
    | (k, v) :: rest, f => if k = f then some v else lookup_field rest f

/-- `TimeRange` from the source: a pair of optional begin/end timestamps.
(`begin`/`end` in Python; `end` is a Lean keyword, hence `rbegin`/`rend`.) -/
structure TimeRange where
  rbegin : Option Nat
  rend : Option Nat
  deriving Repr, DecidableEq

/-- `TimeRange.__eq__`: Python tuple equality `(begin, end) == (begin, end)`
(total, `None` only equals `None`). -/
def timerange_eq (r1 r2 : TimeRange) : Bool :=
  r1.rbegin = r2.rbegin ∧ r1.rend = r2.rend

/-- `TimeRange.__lt__`: Python 3 tuple comparison
`(self.begin, self.end) < (other.begin, other.end)`.  Tuple comparison
finds the first component where the tuples differ (under `==`) and compares
there with `<`; comparing `None` with an int at that position raises
`TypeError` in Python 3. -/
def timerange_lt (r1 r2 : TimeRange) : Except PyErr Bool :=
  if r1.rbegin = r2.rbegin then
    if r1.rend = r2.rend then .ok false
    else
      match r1.rend, r2.rend with
      | some a, some b => .ok (decide (a < b))
      | _, _ => .error .typeError
  else
    match r1.rbegin, r2.rbegin with
    | some a, some b => .ok (decide (a < b))
    | _, _ => .error .typeError

/-- `AnalysisConfig` from the source.  `accumulate` defaults to `None` in
Python and is only ever used for its truthiness, so it is a `Bool` here.
Fields that the engine itself never interprets (`min_duration`,
`max_duration`, `proc_list`, `tid_list`, `cpu_list`, `state`) are kept only
where a claim needs them. -/
structure AnalysisConfig where
  refresh_period : Option Nat
  period_begin_ev_name : Option String
  period_end_ev_name : Option String
  period_begin_key_fields : Option (List String)
  period_end_key_fields : Option (List String)
  period_key_value : Option (List String)
  range_ts : Option (List TimeRange)
  current_ts : Option Nat
  accumulate : Bool
  deriving Repr, DecidableEq

/-- Mutable instance state of `Analysis` (plus the configuration record,
because the engine mutates `conf.current_ts`). -/
structure AnalysisState where
  conf : AnalysisConfig
  period_key : Option (List Nat)
  period_start_ts : Option Nat
  last_event_ts : Option Nat
  started : Bool
  ended : Bool
  deriving Repr, DecidableEq

/-- Python truthiness of an optional integer: `None` and `0` are falsy. -/
def opt_nat_truthy : Option Nat → Bool
  | none => false
  | some n => n != 0

/-- Python truthiness of an optional list/tuple: `None` and empty are falsy. -/
def list_opt_truthy {α : Type} : Option (List α) → Bool
  | none => false
  | some l => !l.isEmpty

/-- Python truthiness of an optional string: `None` and `""` are falsy. -/
def str_opt_truthy : Option String → Bool
  | none => false
  | some s => !s.isEmpty

/-- `Analysis._get_period_event_key` (static): returns `None` when
`key_fields` is falsy or any configured field is missing from the event,
otherwise the tuple of field values. -/
def get_period_event_key (ev : Event) (key_fields : Option (List String)) :
    Option (List Nat) :=
  match key_fields with
  | none => none
  | some [] => none
  | some fs => get_key_values ev fs
where
  get_key_values (ev : Event) : List String → Option (List Nat)
    | [] => some []
    | f :: fs =>
      match ev.get_field f with
      | none => none
      | some v =>
        match get_key_values ev fs with
        | none => none
        | some vs => some (v :: vs)

/-- `Analysis._end_period`: `_end_period_cb` (a no-op in the core), then the
`tick` notification with `begin_ns = self._period_start_ts` and
`end_ns = self._last_event_ts`. -/
def end_period_effects (s : AnalysisState) : List Effect :=
  [Effect.tick s.period_start_ts s.last_event_ts]

/-- `Analysis._begin_period`: record the key and start timestamp, call the
subclass `reset` hook. -/
def begin_period (s : AnalysisState) (period_key : List Nat) (timestamp : Nat) :
    AnalysisState × List Effect :=
  ({s with period_key := some period_key, period_start_ts := some timestamp},
   [Effect.reset])

/-- `Analysis._handle_period_event`. -/
def handle_period_event (s : AnalysisState) (ev : Event) :
    AnalysisState × List Effect :=
  if some ev.name ≠ s.conf.period_begin_ev_name ∧
     some ev.name ≠ s.conf.period_end_ev_name then
    (s, [])
  else if list_opt_truthy s.period_key then
    match get_period_event_key ev s.conf.period_end_key_fields with
    | none => (s, [])
    | some period_key =>
      if period_key.isEmpty then (s, [])
      else if some period_key = s.period_key then
        if str_opt_truthy s.conf.period_end_ev_name then
          if some ev.name = s.conf.period_end_ev_name then
            ({s with period_key := none, period_start_ts := none},
             end_period_effects s)
          else (s, [])
        else if some ev.name = s.conf.period_begin_ev_name then
          let (s2, effs) := begin_period s period_key ev.timestamp
          (s2, end_period_effects s ++ effs)
        else (s, [])
      else (s, [])
  else if some ev.name = s.conf.period_begin_ev_name then
    match get_period_event_key ev s.conf.period_begin_key_fields with
    | none => (s, [])
    | some period_key =>
      if period_key.isEmpty then (s, [])
      else
        match s.conf.period_key_value with
        | none => begin_period s period_key ev.timestamp
        | some pkv =>
          if pkv.isEmpty then begin_period s period_key ev.timestamp
          else if pkv ≠ period_key.map toString then (s, [])
          else begin_period s period_key ev.timestamp
  else (s, [])

/-- `Analysis._check_refresh`. -/
def check_refresh (s : AnalysisState) (ev : Event) :
    Except PyErr (AnalysisState × List Effect) :=
  if !opt_nat_truthy s.period_start_ts then
    .ok ({s with period_start_ts := some ev.timestamp}, [])
  else
    match s.period_start_ts, s.conf.refresh_period with
    | some start, some r =>
      if ev.timestamp ≥ start + r then
        .ok ({s with period_start_ts := some ev.timestamp},
             end_period_effects s)
      else .ok (s, [])
    | _, _ => .error .typeError

/-- The `while` loop of `Analysis._check_analysis` that advances
`current_ts` past every range whose end bound the event's timestamp
exceeds.  `rest` is the suffix of the range list starting at index `i + 1`;
the loop re-tests `ev.timestamp > range_ts.end` after each advance, which
raises `TypeError` when the new range's end bound is `None`. -/
def advance_go (ts : Nat) : List TimeRange → Nat → Except PyErr (Nat × Option TimeRange)
  | [], i => .ok (i + 1, none)
  | r :: rest, i =>
    match r.rend with
    | none => .error .typeError
    | some e =>
      if ts > e then advance_go ts rest (i + 1)
      else .ok (i + 1, some r)

/-- `Analysis._check_analysis`. -/
def check_analysis (s : AnalysisState) (ev : Event) :
    Except PyErr (AnalysisState × List Effect) :=
  if !list_opt_truthy s.conf.range_ts then .ok (s, [])
  else
    let s :=
      if s.conf.current_ts.isNone then
        {s with conf := {s.conf with current_ts := some 0}}
      else s
    let ranges := s.conf.range_ts.getD []
    let i := s.conf.current_ts.getD 0
    match ranges[i]? with
    | none => .error .indexError
    | some range_ts =>
      if s.started then
        match range_ts.rend with
        | none => .ok (s, [])
        | some e =>
          if ev.timestamp > e then
            match advance_go ev.timestamp (ranges.drop (i + 1)) i with
            | .error er => .error er
            | .ok (i2, r2) =>
              let s2 := {s with conf := {s.conf with current_ts := some i2}}
              let (s3, effs) :=
                if !s2.conf.accumulate then
                  ({s2 with period_start_ts := none},
                   end_period_effects s2 ++ [Effect.reset])
                else (s2, [])
              match r2 with
              | none => .ok ({s3 with ended := true}, effs)
              | some r =>
                if (match r.rbegin with
                    | some b => decide (ev.timestamp < b)
                    | none => false) then
                  .ok ({s3 with started := false}, effs)
                else if !s3.conf.accumulate then
                  .ok ({s3 with period_start_ts := some ev.timestamp}, effs)
                else .ok (s3, effs)
          else .ok (s, [])
      else
        match range_ts.rbegin with
        | none => .ok (s, [])
        | some b =>
          if ev.timestamp ≥ b then
            let s2 := {s with started := true}
            if s2.period_start_ts.isNone then
              .ok ({s2 with period_start_ts := some ev.timestamp},
                   [Effect.reset])
            else .ok (s2, [])
          else .ok (s, [])

/-- The condition of the block at the top of `Analysis.process_event`:
`self._conf.current_ts is None and (not self._conf.range_ts or
self._conf.range_ts[0].begin is None)`. -/
def startup_cond (conf : AnalysisConfig) : Bool :=
  conf.current_ts.isNone &&
    (!list_opt_truthy conf.range_ts ||
      (match conf.range_ts with
       | some (r :: _) => r.rbegin.isNone
       | _ => false))

/-- `Analysis.process_event`. -/
def process_event (s : AnalysisState) (ev : Event) :
    Except PyErr (AnalysisState × List Effect) :=
  let s := {s with last_event_ts := some ev.timestamp}
  let s :=
    if startup_cond s.conf then
      {s with period_start_ts := some ev.timestamp, started := true}
    else s
  match check_analysis s ev with
  | .error er => .error er
  | .ok (s, effs) =>
    if !s.started || s.ended then .ok (s, effs)
    else if s.conf.period_begin_ev_name.isSome then
      let (s2, e2) := handle_period_event s ev
      .ok (s2, effs ++ e2)
    else if s.conf.refresh_period.isSome then
      match check_refresh s ev with
      | .error er => .error er
      | .ok (s2, e2) => .ok (s2, effs ++ e2)
    else .ok (s, effs)

/-- `Analysis.end`: one final `_end_period` if `self._period_start_ts` is
truthy (the state itself is not modified). -/
def analysis_end (s : AnalysisState) : List Effect :=
  if opt_nat_truthy s.period_start_ts then end_period_effects s else []

/-- Feed a list of events to `process_event` in order, collecting the
effects; an exception aborts the run. -/
def run_events (s : AnalysisState) : List Event →
    Except PyErr (AnalysisState × List Effect)
  | [] => .ok (s, [])
  | ev :: rest =>
    match process_event s ev with
    | .error er => .error er
    | .ok (s2, e1) =>
      match run_events s2 rest with
      | .error er => .error er
      | .ok (s3, e2) => .ok (s3, e1 ++ e2)

/-- `Analysis._process_event_cb`: per-event-name callback lookup with the
syscall-entry / syscall-exit name fallback.  The registered callbacks are
modelled by the list of their names; the result names the callback that
fires (`none` when no callback matches). -/
def process_event_cb (cbs : List String) (name : String) : Option String :=
  if cbs.contains name then some name
  else if cbs.contains "syscall_entry" &&
          (name.startsWith "sys_" || name.startsWith "syscall_entry_") then
    some "syscall_entry"
  else if cbs.contains "syscall_exit" &&
          (name.startsWith "exit_syscall" || name.startsWith "syscall_exit_") then
    some "syscall_exit"
  else none

/-- Modelled from the spec: the wiring by which each event reaches the
per-event-name callbacks.  The concrete analyses (subclasses of `Analysis`,
outside this core source file) invoke the base `process_event` for the
temporal bookkeeping and then, if the window is active (`started` and not
`ended`), dispatch the event through `_process_event_cb` — "The engine
updates temporal state, … then — if the window is active — dispatches the
event to the matching per-event-name callback."  The third component of the
result is the callback that fired, if any. -/
def process_event_full (cbs : List String) (s : AnalysisState) (ev : Event) :
    Except PyErr (AnalysisState × List Effect × Option String) :=
  match process_event s ev with
  | .error er => .error er
  | .ok (s2, effs) =>
    if s2.started && !s2.ended then
      .ok (s2, effs, process_event_cb cbs ev.name)
    else
      .ok (s2, effs, none)

def is_tick : Effect → Bool
  | .tick _ _ => true
  | .reset => false

/-- Number of `tick` notifications in a list of effects. -/
def num_ticks (effs : List Effect) : Nat :=
  (effs.filter is_tick).length

/-! Concrete configurations and events used to evaluate the engine. -/

/-- A configuration with every option unset (the `AnalysisConfig`
constructor defaults: everything `None`). -/
def conf0 : AnalysisConfig :=
  ⟨none, none, none, none, none, none, none, none, false⟩

/-- The freshly constructed engine state for a configuration
(`Analysis.__init__`). -/
def state0 (c : AnalysisConfig) : AnalysisState :=
  ⟨c, none, none, none, false, false⟩

/-- An event with a timestamp, a name and no fields. -/
def mkev (t : Nat) (n : String) : Event :=
  ⟨t, n, []⟩

/-! General lemmas about the embedded operations. -/

theorem get_period_event_key_of_falsy (ev : Event) (kf : Option (List String))
    (h : list_opt_truthy kf = false) :
    get_period_event_key ev kf = none := by
  match kf with
  | none => rfl
  | some [] => rfl
  | some (f :: fs) => simp [list_opt_truthy] at h

theorem get_key_values_missing (ev : Event) (fs : List String) (f : String)
    (hf : f ∈ fs) (hm : ev.get_field f = none) :
    get_period_event_key.get_key_values ev fs = none := by
  induction fs with
  | nil => cases hf
  | cons g gs ih =>
    rcases List.mem_cons.mp hf with h | h
    · subst h
      unfold get_period_event_key.get_key_values
      rw [hm]
    · unfold get_period_event_key.get_key_values
      cases hg : ev.get_field g with
      | none => rfl
      | some v => rw [ih h]

theorem get_period_event_key_missing (ev : Event) (fs : List String) (f : String)
    (hf : f ∈ fs) (hm : ev.get_field f = none) :
    get_period_event_key ev (some fs) = none := by
  match fs with
  | [] => cases hf
  | g :: gs =>
    unfold get_period_event_key
    exact get_key_values_missing ev (g :: gs) f hf hm

theorem get_key_values_length (ev : Event) (fs : List String) (l : List Nat)
    (h : get_period_event_key.get_key_values ev fs = some l) :
    l.length = fs.length := by
  induction fs generalizing l with
  | nil =>
    unfold get_period_event_key.get_key_values at h
    cases h
    rfl
  | cons g gs ih =>
    unfold get_period_event_key.get_key_values at h
    cases hg : ev.get_field g with
    | none => rw [hg] at h; cases h
    | some v =>
      rw [hg] at h
      cases hvs : get_period_event_key.get_key_values ev gs with
      | none => rw [hvs] at h; cases h
      | some vs =>
        rw [hvs] at h
        cases h
        simp [ih vs hvs]

theorem get_period_event_key_ne_nil (ev : Event) (kf : Option (List String))
    (l : List Nat) (h : get_period_event_key ev kf = some l) : l ≠ [] := by
  match kf with
  | none => cases h
  | some [] => cases h
  | some (g :: gs) =>
    unfold get_period_event_key at h
    have := get_key_values_length ev (g :: gs) l h
    intro hnil
    rw [hnil] at this
    simp at this

/-! Claim C5 (corrected). -/

/-- Claim C5, counterexample: comparing a `TimeRange` whose begin bound is
`None` against one with a numeric begin bound does not yield a result — the
Python 3 tuple comparison in `TimeRange.__lt__` raises `TypeError`, so the
comparison operators are not a total order with `None` as the minimum. -/
theorem timerange_lt_none_raises :
    timerange_lt ⟨none, some 5⟩ ⟨some 1, some 2⟩ = .error .typeError := rfl

/-- Claim C5, amended: on ranges whose bounds are all numeric, `__lt__` is
the lexicographic order on `(begin, end)` and `__eq__` is componentwise
equality; a `None` bound compared against a numeric bound at the first
position where the pairs differ raises `TypeError` instead of yielding a
result (see the counterexample). -/
theorem timerange_lt_numeric_lex :
    ∀ b1 e1 b2 e2 : Nat,
      timerange_lt ⟨some b1, some e1⟩ ⟨some b2, some e2⟩ =
        .ok (decide (b1 < b2 ∨ (b1 = b2 ∧ e1 < e2))) ∧
      timerange_eq ⟨some b1, some e1⟩ ⟨some b2, some e2⟩ =
        decide (b1 = b2 ∧ e1 = e2) := by
  intro b1 e1 b2 e2
  constructor
  · unfold timerange_lt
    rcases eq_or_ne b1 b2 with h | h
    · subst h
      rcases eq_or_ne e1 e2 with h2 | h2
      · subst h2
        simp
      · by_cases hlt : e1 < e2 <;> simp [h2, hlt, Nat.lt_irrefl]
    · by_cases hlt : b1 < b2 <;> simp [h, hlt]
  · unfold timerange_eq
    rcases eq_or_ne b1 b2 with h | h <;> rcases eq_or_ne e1 e2 with h2 | h2 <;>
      simp [h, h2]

/-! Claim C4 (corrected). -/

/-- Claim C4, counterexample: a window is open with a recorded (uncleared)
period start timestamp of `0`, yet `end()` fires no final `end_period`,
because the source guards it with the truthiness test
`if self._period_start_ts:` and `0` is falsy in Python. -/
theorem analysis_end_zero_start_no_tick :
    analysis_end ⟨conf0, none, some 0, some 7, true, false⟩ = [] ∧
    (⟨conf0, none, some 0, some 7, true, false⟩ :
      AnalysisState).period_start_ts = some 0 := ⟨rfl, rfl⟩

/-- Claim C4, amended: `end()` triggers exactly one final `end_period`
(carrying the recorded start timestamp and the last event timestamp) iff
the recorded period start timestamp is truthy, i.e. set *and nonzero*; a
recorded start of `0` (and an unset start) fire nothing. -/
theorem analysis_end_fires_iff_truthy_start :
    ∀ (s : AnalysisState) (t : Nat),
      (s.period_start_ts = some t → t ≠ 0 →
        analysis_end s = [Effect.tick (some t) s.last_event_ts]) ∧
      (s.period_start_ts = none ∨ s.period_start_ts = some 0 →
        analysis_end s = []) := by
  intro s t
  constructor
  · intro h hne
    unfold analysis_end opt_nat_truthy end_period_effects
    rw [h]
    simp [hne]
  · intro h
    rcases h with h | h <;>
      · unfold analysis_end opt_nat_truthy
        rw [h]
        simp

/-- Claim C4, witness for the amended theorem at a concrete open window. -/
theorem analysis_end_fires_witness :
    analysis_end ⟨conf0, none, some 3, some 7, true, false⟩ =
      [Effect.tick (some 3) (some 7)] :=
  (analysis_end_fires_iff_truthy_start ⟨conf0, none, some 3, some 7, true, false⟩ 3).1
    rfl (by decide)

/-! Claim C3 (code_bug). -/

/-- Claim C3: against the claim (and the `started and not ended` guard in
`process_event` itself), an event processed after `ended` became true does
not complete without error: `_check_analysis` runs before the guard and
indexes `range_ts[current_ts]` with `current_ts` already advanced to the
length of the range list, raising `IndexError`.  With the single range
`[10, 20]`, the event at 25 exhausts the list (`ended := true`) and the
next event at 30 raises. -/
theorem process_event_after_ended_raises :
    (match run_events (state0 { conf0 with
        range_ts := some [⟨some 10, some 20⟩] })
        [mkev 15 "a", mkev 25 "a"] with
     | .ok (s, _) => s.ended && (s.conf.current_ts == some 1)
     | .error _ => false) = true ∧
    run_events (state0 { conf0 with range_ts := some [⟨some 10, some 20⟩] })
      [mkev 15 "a", mkev 25 "a", mkev 30 "a"] = .error .indexError :=
  ⟨rfl, rfl⟩

/-! Claim C8 (code_bug). -/

/-- Claim C8: against the claim, in refresh mode (refresh_period = 100, no
range list, no keyed-period configuration) the events at 0, 50, 150, 260
produce *no* tick at all — not ticks at 150 and 260 — because the startup
block of `process_event` keeps running (`current_ts` stays `None` when no
range list is configured) and overwrites `period_start_ts` with every
event's timestamp before `_check_refresh` compares the elapsed time, so the
threshold is never reached.  The final state shows the clobbered window
start (260, the last event). -/
theorem refresh_mode_never_ticks :
    (match run_events (state0 { conf0 with refresh_period := some 100 })
        [mkev 0 "a", mkev 50 "a", mkev 150 "a", mkev 260 "a"] with
     | .ok (s, effs) => (num_ticks effs, s.period_start_ts)
     | .error _ => (99, none)) = (0, some 260) := rfl

/-! Claim C2 (corrected). -/

/-- Claim C2, counterexample: with `accumulate = true` and ranges
`[10, 20], [30, 40]`, the event at 35 crosses the first range's end bound
(`current_ts` advances to 1) yet no tick is fired — the only effect of the
whole run is the `reset` from the very first window open. -/
theorem accumulate_boundary_no_tick :
    (match run_events (state0 { conf0 with
        range_ts := some [⟨some 10, some 20⟩, ⟨some 30, some 40⟩],
        accumulate := true })
        [mkev 15 "a", mkev 35 "a"] with
     | .ok (s, effs) => (num_ticks effs, s.conf.current_ts)
     | .error _ => (99, none)) = (0, some 1) := rfl

/-- Claim C2, amended: with `accumulate` set and a configured range list,
an event whose timestamp crosses the current range's end bound advances
`current_ts` past every crossed boundary but fires *no* `end_period` (and
no `reset`): the effect list is empty, so no tick notification is sent at
window boundaries — the window (its `period_start_ts`) persists, and the
only tick a consumer gets comes from the final `end()`. -/
theorem accumulate_crossing_fires_no_tick
    (s : AnalysisState) (ev : Event) (ranges : List TimeRange)
    (rng : TimeRange) (i e i2 : Nat) (r2 : Option TimeRange)
    (hstart : s.started = true) (hacc : s.conf.accumulate = true)
    (hr : s.conf.range_ts = some ranges)
    (hcur : s.conf.current_ts = some i)
    (hidx : ranges[i]? = some rng)
    (hend : rng.rend = some e)
    (hcross : ev.timestamp > e)
    (hadv : advance_go ev.timestamp (ranges.drop (i + 1)) i = .ok (i2, r2)) :
    ∃ s2, check_analysis s ev = .ok (s2, []) ∧
      s2.period_start_ts = s.period_start_ts ∧
      s2.conf.current_ts = some i2 := by
  have hne : ranges ≠ [] := by
    intro hnil
    subst hnil
    rw [List.getElem?_nil] at hidx
    cases hidx
  have htr2 : list_opt_truthy (some ranges) = true := by
    simp [list_opt_truthy, List.isEmpty_iff, hne]
  unfold check_analysis
  simp only [hr, hcur, hstart, hacc, htr2, hidx, hend, hcross, hadv,
    Bool.not_true, Bool.false_eq_true, if_false, ite_false, if_true, ite_true,
    eq_self_iff_true, Option.isNone_some, Option.getD_some]
  cases r2 with
  | none => exact ⟨_, rfl, rfl, rfl⟩
  | some r =>
    cases hgap : (match r.rbegin with
      | some b => decide (ev.timestamp < b)
      | none => false) with
    | true =>
      simp only [hgap, eq_self_iff_true, if_true, ite_true]
      exact ⟨_, rfl, rfl, rfl⟩
    | false =>
      simp only [hgap, Bool.false_eq_true, if_false, ite_false]
      exact ⟨_, rfl, rfl, rfl⟩

/-- Claim C2, witness: the amended theorem applied to the boundary-crossing
event at 35 of the counterexample run (ranges `[10,20],[30,40]`,
`accumulate = true`, open window started at 15). -/
theorem accumulate_crossing_fires_no_tick_witness :
    ∃ s2, check_analysis
        ⟨{conf0 with
            range_ts := some [⟨some 10, some 20⟩, ⟨some 30, some 40⟩],
            current_ts := some 0, accumulate := true},
          none, some 15, some 15, true, false⟩
        (mkev 35 "a") = .ok (s2, []) ∧
      s2.period_start_ts =
        (⟨{conf0 with
            range_ts := some [⟨some 10, some 20⟩, ⟨some 30, some 40⟩],
            current_ts := some 0, accumulate := true},
          none, some 15, some 15, true, false⟩ :
            AnalysisState).period_start_ts ∧
      s2.conf.current_ts = some 1 :=
  accumulate_crossing_fires_no_tick _ (mkev 35 "a")
    [⟨some 10, some 20⟩, ⟨some 30, some 40⟩] ⟨some 10, some 20⟩
    0 20 1 (some ⟨some 30, some 40⟩) rfl rfl rfl rfl rfl rfl (by decide) rfl

/-! Claim C10 (corrected). -/

theorem check_analysis_no_ranges (s : AnalysisState) (ev : Event)
    (h : list_opt_truthy s.conf.range_ts = false) :
    check_analysis s ev = .ok (s, []) := by
  unfold check_analysis
  rw [h]
  rfl

theorem handle_period_event_no_key_fields (s : AnalysisState) (ev : Event)
    (hkf : list_opt_truthy s.conf.period_begin_key_fields = false)
    (hpk : list_opt_truthy s.period_key = false) :
    handle_period_event s ev = (s, []) := by
  unfold handle_period_event
  rw [hpk]
  split
  · rfl
  · simp only [Bool.false_eq_true, if_false, ite_false]
    split
    · rw [get_period_event_key_of_falsy ev s.conf.period_begin_key_fields hkf]
    · rfl

theorem process_event_no_key_fields_step
    (s : AnalysisState) (ev : Event)
    (hb : s.conf.period_begin_ev_name.isSome = true)
    (hkf : list_opt_truthy s.conf.period_begin_key_fields = false)
    (hr : list_opt_truthy s.conf.range_ts = false)
    (hpk : s.period_key = none) :
    ∃ s2, process_event s ev = .ok (s2, []) ∧ s2.period_key = none ∧
      s2.conf = s.conf := by
  unfold process_event
  cases hsc : startup_cond s.conf with
  | false =>
    simp only [hsc, Bool.false_eq_true, if_false, ite_false]
    rw [check_analysis_no_ranges _ ev (by simpa using hr)]
    dsimp only
    cases hst : s.started with
    | false =>
      simp only [hst, Bool.not_false, Bool.true_or, if_true, ite_true]
      exact ⟨_, rfl, hpk, rfl⟩
    | true =>
      simp only [hst, Bool.not_true, Bool.false_or]
      cases hed : s.ended with
      | true =>
        simp only [if_true, ite_true]
        exact ⟨_, rfl, hpk, rfl⟩
      | false =>
        simp only [Bool.false_eq_true, if_false, ite_false, hb,
          if_true, ite_true]
        rw [handle_period_event_no_key_fields _ ev (by simpa using hkf)
          (by simp [list_opt_truthy, hpk])]
        exact ⟨_, rfl, hpk, rfl⟩
  | true =>
    simp only [hsc, if_true, ite_true]
    rw [check_analysis_no_ranges _ ev (by simpa using hr)]
    dsimp only
    cases hed : s.ended with
    | true =>
      simp only [Bool.not_true, Bool.false_or, if_true, ite_true]
      exact ⟨_, rfl, hpk, rfl⟩
    | false =>
      simp only [Bool.not_true, Bool.false_or, Bool.false_eq_true, if_false,
        ite_false, hb, if_true, ite_true]
      rw [handle_period_event_no_key_fields _ ev (by simpa using hkf)
        (by simp [list_opt_truthy, hpk])]
      exact ⟨_, rfl, hpk, rfl⟩

/-- Claim C10, counterexample: with `period_begin_ev_name = "b"` configured
but no begin-key fields (and no range list), processing a single begin-event
at timestamp 5 leaves `period_start_ts = some 5`, not `None` — the startup
block of `process_event` sets it on every event regardless of the
keyed-period machinery, so "period_key *and period_start_ts* stay None" is
false as stated. -/
theorem no_key_fields_start_ts_still_set :
    (match run_events
        (state0 { conf0 with period_begin_ev_name := some "b" })
        [mkev 5 "b"] with
     | .ok (s, _) => s.period_start_ts
     | .error _ => none) = some 5 := rfl

/-- Claim C10, amended: if `period_begin_ev_name` is configured but
`period_begin_key_fields` is unset or empty (and no range list gates the
run), then over every event stream the keyed-period machinery never opens a
period — `period_key` stays `None`, no tick and no reset is ever fired
(`refresh_period`, even if set, is bypassed by the mode precedence), and the
configuration is untouched.  `period_start_ts`, however, does not stay
`None`: the startup block keeps assigning it (see the counterexample). -/
theorem no_key_fields_never_opens
    (evs : List Event) (s : AnalysisState)
    (hb : s.conf.period_begin_ev_name.isSome = true)
    (hkf : list_opt_truthy s.conf.period_begin_key_fields = false)
    (hr : list_opt_truthy s.conf.range_ts = false)
    (hpk : s.period_key = none) :
    ∃ s2, run_events s evs = .ok (s2, []) ∧ s2.period_key = none ∧
      s2.conf = s.conf := by
  induction evs generalizing s with
  | nil => exact ⟨s, rfl, hpk, rfl⟩
  | cons ev rest ih =>
    obtain ⟨s2, h1, h2, h3⟩ :=
      process_event_no_key_fields_step s ev hb hkf hr hpk
    obtain ⟨s3, h4, h5, h6⟩ := ih s2 (by rw [h3]; exact hb)
      (by rw [h3]; exact hkf) (by rw [h3]; exact hr) h2
    refine ⟨s3, ?_, h5, h6.trans h3⟩
    unfold run_events
    rw [h1]
    dsimp only
    rw [h4]
    rfl

/-- Claim C10, witness: the amended theorem applied to a concrete run (one
begin-event, refresh also configured to exhibit the precedence bypass). -/
theorem no_key_fields_never_opens_witness :
    ∃ s2, run_events
        (state0 { conf0 with
          period_begin_ev_name := some "b", refresh_period := some 100 })
        [mkev 5 "b", mkev 300 "b"] = .ok (s2, []) ∧
      s2.period_key = none ∧
      s2.conf = (state0 { conf0 with
        period_begin_ev_name := some "b", refresh_period := some 100 }).conf :=
  no_key_fields_never_opens [mkev 5 "b", mkev 300 "b"]
    (state0 { conf0 with
      period_begin_ev_name := some "b", refresh_period := some 100 })
    rfl rfl rfl rfl

/-! Claim C9 (confirmed). -/

/-- The key-field list `_handle_period_event` consults for an event: the
end-key fields while a period is open (`self._period_key` truthy), the
begin-key fields otherwise. -/
def period_event_used_key_fields (s : AnalysisState) : Option (List String) :=
  if list_opt_truthy s.period_key then s.conf.period_end_key_fields
  else s.conf.period_begin_key_fields

/-- Claim C9: if any configured key field is absent from an event, the
event is ignored for period-keying without raising (the `KeyError` is
caught inside `_get_period_event_key`): `_handle_period_event` returns the
state unchanged — no period opens or closes, `period_key` and
`period_start_ts` are untouched — and fires no effect (no tick, no reset). -/
theorem missing_key_field_ignored
    (s : AnalysisState) (ev : Event) (fs : List String) (f : String)
    (hkf : period_event_used_key_fields s = some fs)
    (hf : f ∈ fs) (hm : ev.get_field f = none) :
    handle_period_event s ev = (s, []) := by
  unfold handle_period_event
  unfold period_event_used_key_fields at hkf
  split
  · rfl
  · cases hpk : list_opt_truthy s.period_key with
    | true =>
      simp only [hpk, if_true, ite_true] at hkf
      simp only [hpk, if_true, ite_true]
      rw [hkf, get_period_event_key_missing ev fs f hf hm]
    | false =>
      simp only [hpk, Bool.false_eq_true, if_false, ite_false] at hkf
      simp only [hpk, Bool.false_eq_true, if_false, ite_false]
      split
      · rw [hkf, get_period_event_key_missing ev fs f hf hm]
      · rfl

/-- A keyed-period configuration: begin-event `"pb"`, end-event `"pe"`,
key fields `["k"]` on both sides. -/
def keyed_conf : AnalysisConfig :=
  {conf0 with
    period_begin_ev_name := some "pb", period_end_ev_name := some "pe",
    period_begin_key_fields := some ["k"], period_end_key_fields := some ["k"]}

/-- An engine state with a keyed period open: key `(1,)`, window started at
10, last event seen at 20. -/
def keyed_open_state : AnalysisState :=
  ⟨keyed_conf, some [1], some 10, some 20, true, false⟩

/-- Claim C9, witness: an open keyed period (`key = (1,)`, end-key fields
`["k"]`) and an end-event that lacks the field `"k"`: the event is ignored
and the state is unchanged. -/
theorem missing_key_field_ignored_witness :
    handle_period_event keyed_open_state ⟨30, "pe", []⟩ =
      (keyed_open_state, []) :=
  missing_key_field_ignored keyed_open_state ⟨30, "pe", []⟩ ["k"] "k"
    rfl (by simp) rfl

/-! Claim C6 (confirmed). -/

/-- Claim C6: while a keyed period is open with key `K` (and an end-event
name is configured), an end-event whose extracted key differs from `K` is
ignored — state unchanged, no effects — and an end-event whose extracted
key equals `K` closes the period: exactly one `end_period` (the tick with
the window's start and the last event timestamp) fires and both
`period_key` and `period_start_ts` are cleared. -/
theorem keyed_end_event_requires_key_match
    (s : AnalysisState) (ev : Event) (K k2 : List Nat) (eN : String)
    (hK : s.period_key = some K) (hKne : K ≠ [])
    (hEnd : s.conf.period_end_ev_name = some eN)
    (hEne : str_opt_truthy s.conf.period_end_ev_name = true)
    (hname : ev.name = eN)
    (hk : get_period_event_key ev s.conf.period_end_key_fields = some k2) :
    (k2 ≠ K → handle_period_event s ev = (s, [])) ∧
    (k2 = K → handle_period_event s ev =
      ({s with period_key := none, period_start_ts := none},
       [Effect.tick s.period_start_ts s.last_event_ts])) := by
  have hgate : ¬(some ev.name ≠ s.conf.period_begin_ev_name ∧
      some ev.name ≠ s.conf.period_end_ev_name) := by
    intro hcon
    exact hcon.2 (by rw [hname, hEnd])
  have hpk : list_opt_truthy s.period_key = true := by
    rw [hK]
    simp [list_opt_truthy, List.isEmpty_iff, hKne]
  have hk2ne := get_period_event_key_ne_nil ev _ k2 hk
  have hk2e : k2.isEmpty = false := by
    simp [List.isEmpty_iff, hk2ne]
  constructor
  · intro hne2
    unfold handle_period_event
    rw [if_neg hgate]
    simp only [hpk, if_true, ite_true]
    rw [hk]
    simp only [hk2e, Bool.false_eq_true, if_false, ite_false]
    rw [if_neg (by rw [hK]; simp [hne2])]
  · intro heq
    subst heq
    unfold handle_period_event
    rw [if_neg hgate]
    simp only [hpk, if_true, ite_true]
    rw [hk]
    simp only [hk2e, Bool.false_eq_true, if_false, ite_false]
    rw [if_pos (by rw [hK])]
    simp only [hEne, if_true, ite_true]
    rw [if_pos (by rw [hname, hEnd])]
    rfl

/-- Claim C6, witness: an open period with key `(1,)`; the end-event with
key `(2,)` is ignored, the end-event with key `(1,)` closes the period. -/
theorem keyed_end_event_requires_key_match_witness :
    handle_period_event keyed_open_state ⟨30, "pe", [("k", 2)]⟩ =
      (keyed_open_state, []) ∧
    handle_period_event keyed_open_state ⟨30, "pe", [("k", 1)]⟩ =
      (⟨keyed_conf, none, none, some 20, true, false⟩,
       [Effect.tick (some 10) (some 20)]) :=
  ⟨(keyed_end_event_requires_key_match keyed_open_state
      ⟨30, "pe", [("k", 2)]⟩ [1] [2] "pe"
      rfl (by decide) rfl rfl rfl rfl).1 (by decide),
   (keyed_end_event_requires_key_match keyed_open_state
      ⟨30, "pe", [("k", 1)]⟩ [1] [1] "pe"
      rfl (by decide) rfl rfl rfl rfl).2 rfl⟩

/-! Claim C7 (confirmed). -/

/-- A keyed-period configuration with no end-event name: begin-event `"pb"`
doubles as the rotation marker. -/
def rotation_conf : AnalysisConfig :=
  {conf0 with
    period_begin_ev_name := some "pb",
    period_begin_key_fields := some ["k"], period_end_key_fields := some ["k"]}

/-- An engine state with a keyed period open under `rotation_conf`. -/
def rotation_open_state : AnalysisState :=
  ⟨rotation_conf, some [1], some 10, some 20, true, false⟩

/-- Claim C7: in keyed-period mode with no end-event name configured, a
second begin-event carrying the same key `K` as the open period rotates the
period: exactly one `end_period` (one tick, carrying the old window's
start) immediately followed by one `begin_period` (one `reset`, with
`period_start_ts` moved to this event's timestamp and the key kept) — not
two independent opens and not a no-op. -/
theorem keyed_begin_rotation
    (s : AnalysisState) (ev : Event) (K : List Nat) (bN : String)
    (hK : s.period_key = some K) (hKne : K ≠ [])
    (hEnd : str_opt_truthy s.conf.period_end_ev_name = false)
    (hb : s.conf.period_begin_ev_name = some bN)
    (hname : ev.name = bN)
    (hk : get_period_event_key ev s.conf.period_end_key_fields = some K) :
    handle_period_event s ev =
      ({s with period_key := some K, period_start_ts := some ev.timestamp},
       [Effect.tick s.period_start_ts s.last_event_ts, Effect.reset]) := by
  have hgate : ¬(some ev.name ≠ s.conf.period_begin_ev_name ∧
      some ev.name ≠ s.conf.period_end_ev_name) := by
    intro hcon
    exact hcon.1 (by rw [hname, hb])
  have hpk : list_opt_truthy s.period_key = true := by
    rw [hK]
    simp [list_opt_truthy, List.isEmpty_iff, hKne]
  have hke : K.isEmpty = false := by
    simp [List.isEmpty_iff, hKne]
  unfold handle_period_event
  rw [if_neg hgate]
  simp only [hpk, if_true, ite_true]
  rw [hk]
  simp only [hke, Bool.false_eq_true, if_false, ite_false]
  rw [if_pos (by rw [hK])]
  simp only [hEnd, Bool.false_eq_true, if_false, ite_false]
  rw [if_pos (by rw [hname, hb])]
  rfl

/-- Claim C7, witness: open period with key `(1,)` started at 10, second
begin-event with key `(1,)` at 30 → one tick then one reset, window
restarted at 30 with the same key. -/
theorem keyed_begin_rotation_witness :
    handle_period_event rotation_open_state ⟨30, "pb", [("k", 1)]⟩ =
      (⟨rotation_conf, some [1], some 30, some 20, true, false⟩,
       [Effect.tick (some 10) (some 20), Effect.reset]) :=
  keyed_begin_rotation rotation_open_state ⟨30, "pb", [("k", 1)]⟩ [1] "pb"
    rfl (by decide) rfl rfl rfl rfl

/-! Claim C1 (confirmed, with the subclass dispatch glue modelled from the
spec in `process_event_full`). -/

/-- Claim C1: for every event processed while the engine is started and not
ended (checked *after* the temporal bookkeeping of `process_event`), the
event is dispatched to the matching per-event-name callback — exact name
match first, otherwise the syscall-entry / syscall-exit name fallback — and
nothing beyond "started and not ended" gates the dispatch; when the window
is not active no callback fires. -/
theorem process_event_dispatch
    (cbs : List String) (s : AnalysisState) (ev : Event)
    (s2 : AnalysisState) (effs : List Effect) (d : Option String)
    (h : process_event_full cbs s ev = .ok (s2, effs, d)) :
    (s2.started = true ∧ s2.ended = false → d = process_event_cb cbs ev.name) ∧
    (s2.started = true ∧ s2.ended = false → cbs.contains ev.name = true →
      d = some ev.name) ∧
    (¬(s2.started = true ∧ s2.ended = false) → d = none) ∧
    (cbs.contains ev.name = false → cbs.contains "syscall_entry" = true →
      (ev.name.startsWith "sys_" ||
        ev.name.startsWith "syscall_entry_") = true →
      process_event_cb cbs ev.name = some "syscall_entry") ∧
    (cbs.contains ev.name = false →
      (cbs.contains "syscall_entry" &&
        (ev.name.startsWith "sys_" ||
          ev.name.startsWith "syscall_entry_")) = false →
      cbs.contains "syscall_exit" = true →
      (ev.name.startsWith "exit_syscall" ||
        ev.name.startsWith "syscall_exit_") = true →
      process_event_cb cbs ev.name = some "syscall_exit") := by
  have hentry : cbs.contains ev.name = false →
      cbs.contains "syscall_entry" = true →
      (ev.name.startsWith "sys_" ||
        ev.name.startsWith "syscall_entry_") = true →
      process_event_cb cbs ev.name = some "syscall_entry" := by
    intro h1 h2 h3
    simp at h1 h2
    simp [process_event_cb, h1, h2, h3]
  have hexit : cbs.contains ev.name = false →
      (cbs.contains "syscall_entry" &&
        (ev.name.startsWith "sys_" ||
          ev.name.startsWith "syscall_entry_")) = false →
      cbs.contains "syscall_exit" = true →
      (ev.name.startsWith "exit_syscall" ||
        ev.name.startsWith "syscall_exit_") = true →
      process_event_cb cbs ev.name = some "syscall_exit" := by
    intro h1 h2 h3 h4
    simp at h1 h2 h3
    simp [process_event_cb, h1, h3, h4]
    exact h2
  have hexact : cbs.contains ev.name = true →
      process_event_cb cbs ev.name = some ev.name := by
    intro h1
    simp at h1
    simp [process_event_cb, h1]
  unfold process_event_full at h
  cases hp : process_event s ev with
  | error er =>
    rw [hp] at h
    simp at h
  | ok p =>
    obtain ⟨s1, e1⟩ := p
    rw [hp] at h
    dsimp only at h
    by_cases hg : (s1.started && !s1.ended) = true
    · rw [if_pos hg] at h
      simp only [Except.ok.injEq, Prod.mk.injEq] at h
      obtain ⟨h1, h2, h3⟩ := h
      subst h1
      subst h2
      subst h3
      refine ⟨fun _ => rfl, fun _ hc => hexact hc, fun hng => ?_, hentry, hexit⟩
      rw [Bool.and_eq_true, Bool.not_eq_true'] at hg
      exact absurd hg hng
    · rw [if_neg hg] at h
      simp only [Except.ok.injEq, Prod.mk.injEq] at h
      obtain ⟨h1, h2, h3⟩ := h
      subst h1
      subst h2
      subst h3
      have hng : ¬(s1.started = true ∧ s1.ended = false) := by
        intro hpair
        exact hg (by rw [Bool.and_eq_true, Bool.not_eq_true']; exact hpair)
      refine ⟨fun hpair => absurd hpair hng, fun hpair _ => absurd hpair hng,
        fun _ => rfl, hentry, hexit⟩

/-- Claim C1, witness: the event `"foo"` processed with an all-time window
(no range list) is started and not ended after the bookkeeping, and is
dispatched to the exact-match callback `"foo"`. -/
theorem process_event_dispatch_witness :
    (some "foo" : Option String) = process_event_cb ["foo"] "foo" ∧
    (some "foo" : Option String) = some "foo" :=
  ⟨(process_event_dispatch ["foo"] (state0 conf0) (mkev 1 "foo")
      ⟨conf0, none, some 1, some 1, true, false⟩ [] (some "foo") rfl).1
      ⟨rfl, rfl⟩,
   (process_event_dispatch ["foo"] (state0 conf0) (mkev 1 "foo")
      ⟨conf0, none, some 1, some 1, true, false⟩ [] (some "foo") rfl).2.1
      ⟨rfl, rfl⟩ rfl⟩
